import Mathlib

/-!
Verification development for the river/motya reverse-proxy repository.

Shallow embedding of:
* `motya/src/proxy/upstream_router.rs` — the path router (`UpstreamRouter::build`,
  `get_upstream_by_path`, `pick_peer`) over a model of the external `matchit` trie;
* `motya-config/src/builder.rs` — the recursive include loader (`load_recursive`,
  `build_config`);
* `river/src/config/kdl/mod.rs` and `river/src/config/kdl/parser.rs` — the KDL
  configuration parser (`extract_services`, `extract_listener`, `extract_connector`,
  `make_rate_limiter`, `extract_system_data`, `extract_threads_per_service`);
* `river/src/proxy/simple_response.rs` — the static-response request filter.

External collaborators (the `matchit` router, `std` socket-address parsing, the
`regex` crate, the pingora load balancer and session) are modelled by explicit
semantic definitions or by function parameters, as noted at each definition.
-/

namespace Motya

/-- Modelled from the spec: `RouteMatcher` of `motya-config` (common_types/connectors.rs is
not among the provided sources): the route-match mode of an upstream, `Exact` or `Prefix`. -/
inductive RouteMatcher where
  | Exact : RouteMatcher
  | Prefix : RouteMatcher
deriving DecidableEq, Repr

/-- Rust `str::trim_end_matches('/')`: removes every trailing `'/'`. -/
def trimTrailingSlashes (s : String) : String :=
  String.mk ((s.data.reverse.dropWhile (fun c => c = '/')).reverse)

/-- True on the brace characters that delimit `matchit` route parameters. -/
def hasBraceChar (c : Char) : Bool :=
  c = '{' || c = '}'

/-- Split a path or route pattern into its `'/'`-separated segments (as `matchit`'s trie
does); `"/api/users"` becomes `["", "api", "users"]`. -/
def splitSlash : List Char → List (List Char)
  | [] => [[]]
  | c :: cs =>
    if c = '/' then [] :: splitSlash cs
    else
      match splitSlash cs with
      | t :: ts => (c :: t) :: ts
      | [] => [[c]]

/-- Rejoin segments with `'/'`; the left inverse of `splitSlash`. -/
def joinSlash : List (List Char) → List Char
  | [] => []
  | [s] => s
  | s :: rest => s ++ '/' :: joinSlash rest

/-- One segment of a `matchit` route template: static text, a named parameter `{name}`
matching exactly one non-empty segment, or a catch-all `{*name}` matching the whole
remainder (legal only as the final segment). -/
inductive PatSeg where
  | lit (s : List Char)
  | param (name : List Char)
  | catchAll (name : List Char)
deriving DecidableEq, Repr

/-- Parse one template segment: a braceless segment is static; `{name}` is a named
parameter, `{*name}` a catch-all (non-empty, brace-free names); anything else
containing a brace is a malformed template (`none`). -/
def parseSeg (s : List Char) : Option PatSeg :=
  if s.any hasBraceChar then
    match s with
    | '{' :: rest =>
      match rest.reverse with
      | '}' :: innerRev =>
        match innerRev.reverse with
        | [] => none
        | '*' :: nm =>
          if nm.isEmpty || nm.any hasBraceChar then none else some (.catchAll nm)
        | nm => if nm.any hasBraceChar then none else some (.param nm)
      | _ => none
    | _ => none
  else some (.lit s)

/-- A catch-all segment may stand only in the final position of a template. -/
def catchAllOnlyLast : List PatSeg → Bool
  | [] => true
  | [_] => true
  | .catchAll _ :: _ => false
  | _ :: rest => catchAllOnlyLast rest

/-- Parse every segment of a template; `none` as soon as one is malformed. -/
def parseSegs : List (List Char) → Option (List PatSeg)
  | [] => some []
  | s :: rest =>
    match parseSeg s, parseSegs rest with
    | some p, some ps => some (p :: ps)
    | _, _ => none

/-- Parse a route template into segments; `none` on a malformed template (which
`matchit::Router::insert` rejects). -/
def parsePattern (p : String) : Option (List PatSeg) :=
  match parseSegs (splitSlash p.data) with
  | none => none
  | some segs => if catchAllOnlyLast segs then some segs else none

/-- Model of the external `matchit` segment matching: a static segment matches itself, a
named parameter matches any one non-empty segment, and a trailing catch-all matches the
whole remainder — including the empty remainder, as the repository's own router tests
pin (`"/api"` matches `"/api/{*catch_all}"`). -/
def segsMatch : List PatSeg → List (List Char) → Bool
  | [], [] => true
  | [.catchAll _], _ => true
  | .lit s :: ps, t :: ts => s = t && segsMatch ps ts
  | .param _ :: ps, t :: ts => !t.isEmpty && segsMatch ps ts
  | _, _ => false

/-- Whether a route template matches a path in the `matchit` model. -/
def patternMatches (pat path : String) : Bool :=
  match parsePattern pat with
  | some segs => segsMatch segs (splitSlash path.data)
  | none => false

/-- Model of `matchit::InsertError`: the pattern whose insertion was rejected. -/
structure InsertError where
  pattern : String
deriving DecidableEq, Repr

/-- Two successfully parsed templates conflict when they have the same shape: equal
static segments and parameter/catch-all segments in the same positions (parameter names
are immaterial). This covers the duplicate routes `matchit` rejects among the shapes
this repository inserts; `matchit` additionally rejects some further overlapping
templates, which no theorem below quantifies over. -/
def conflictSegs : List PatSeg → List PatSeg → Bool
  | [], [] => true
  | .lit s :: as, .lit t :: bs => s = t && conflictSegs as bs
  | .param _ :: as, .param _ :: bs => conflictSegs as bs
  | .catchAll _ :: as, .catchAll _ :: bs => conflictSegs as bs
  | _, _ => false

/-- Model of `matchit::Router` as the list of inserted (pattern, value) pairs. -/
abbrev RouterM (T : Type) : Type := List (String × T)

/-- Model of `matchit::Router::insert`: reject malformed templates and conflicting
routes, otherwise append. -/
def routerInsert (r : RouterM T) (pat : String) (v : T) : Except InsertError (RouterM T) :=
  match parsePattern pat with
  | none => .error ⟨pat⟩
  | some segs =>
    if r.any (fun e =>
        match parsePattern e.1 with
        | some segs2 => conflictSegs segs segs2
        | none => false) then .error ⟨pat⟩
    else .ok (r ++ [(pat, v)])

/-- The priority of a template segment in the trie walk: static before named parameter
before catch-all. -/
def segKind : PatSeg → Nat
  | .lit _ => 0
  | .param _ => 1
  | .catchAll _ => 2

/-- Lexicographic comparison of segment-priority vectors: the `matchit` trie tries
static children first, then parameters, then catch-alls, so of two matching routes the
one whose priority vector is lexicographically smaller is found first. -/
def lexLt : List Nat → List Nat → Bool
  | [], [] => false
  | [], _ :: _ => true
  | _ :: _, [] => false
  | a :: as, b :: bs => if a < b then true else if b < a then false else lexLt as bs

/-- Model of `matchit::Router::at`: of the routes matching the path, the one whose
segment-priority vector is lexicographically least (exact > longest static prefix >
named parameter > catch-all > root fallback). -/
def routerAt (r : RouterM T) (path : String) : Option T :=
  let cands := r.filterMap (fun e =>
    match parsePattern e.1 with
    | some segs =>
      if segsMatch segs (splitSlash path.data) then some (segs.map segKind, e.2)
      else none
    | none => none)
  (cands.foldl (fun acc c =>
    match acc with
    | none => some c
    | some a => if lexLt c.1 a.1 then some c else some a) none).map (fun x => x.2)

/-- The pattern `UpstreamRouter::build` inserts for a raw path and matcher:
`Exact` inserts the path verbatim; `Prefix` trims trailing slashes and appends
`/{*catch_all}` (just `/{*catch_all}` when the trimmed path is empty). -/
def insertedPattern (raw : String) (m : RouteMatcher) : String :=
  match m with
  | .Exact => raw
  | .Prefix =>
    let clean := trimTrailingSlashes raw
    if clean = "" then "/{*catch_all}" else clean ++ "/{*catch_all}"

/-- `UpstreamRouter::build`, generic over the `UpstreamContextTrait` accessors
(`get_prefix_path`, `get_route_type`). -/
def build (getPre : T → String) (getMatcher : T → RouteMatcher)
    (paths : List T) : Except InsertError (RouterM T) :=
  paths.foldlM (fun router item =>
    routerInsert router (insertedPattern (getPre item) (getMatcher item)) item) []

/-- `UpstreamRouter::get_upstream_by_path`. -/
def get_upstream_by_path (r : RouterM T) (path : String) : Option T :=
  routerAt r path

/-- Modelled from the spec: `HttpPeer` of the external pingora library, reduced to the
peer address (its contents are never inspected by the routed code). -/
structure HttpPeer where
  addr : String
deriving DecidableEq, Repr

/-- A pingora `Backend`; the code `expect`s an `HttpPeer` in `backend.ext`, so the model
carries the peer directly. -/
structure Backend where
  peer : HttpPeer
deriving DecidableEq, Repr

/-- Modelled from the spec: the per-request context of `motya-config`'s
`legacy::request_selector` (not among the provided sources), reduced to the selector
scratch buffer of bytes. -/
structure ContextInfo where
  selector_buf : List Nat
deriving DecidableEq, Repr

/-- Modelled from the spec: the per-request session info, reduced to the request path. -/
structure SessionInfo where
  path : String
deriving DecidableEq, Repr

/-- A `RequestSelector` takes the context and session mutably and returns the key bytes;
the model returns the updated context together with the key. -/
def RequestSelector : Type := ContextInfo → SessionInfo → ContextInfo × List Nat

/-- `Balancer`: the selector plus the backend selection, the latter abstracting the four
external pingora `LoadBalancer` variants behind one function. -/
structure Balancer where
  selector : RequestSelector
  select : List Nat → Option Backend

/-- The error produced by `pingora::Error::explain(ErrorType::HTTPStatus(500), …)`. -/
structure PingoraError where
  status : Nat
  msg : String
deriving DecidableEq, Repr

/-- `UpstreamRouter::pick_peer`, generic over the trait accessor `get_balancer`: route the
path, run the selector, select a backend, clear the selector scratch buffer, then either
fail with HTTP 500 (no backend) or return the peer. Returns the updated context alongside
the result, modelling mutation of `ctx`. -/
def pick_peer (getBalancer : T → Balancer) (router : RouterM T)
    (ctx : ContextInfo) (session : SessionInfo) :
    ContextInfo × Except PingoraError (Option HttpPeer) :=
  match get_upstream_by_path router session.path with
  | none => (ctx, .ok none)
  | some upstream =>
    let sel := (getBalancer upstream).selector ctx session
    let backend := (getBalancer upstream).select sel.2
    -- "Manually clear the selector buf to avoid accidental leaks"
    let ctx2 : ContextInfo := { sel.1 with selector_buf := [] }
    match backend with
    | none => (ctx2, .error ⟨500, "Unable to determine backend"⟩)
    | some b => (ctx2, .ok (some b.peer))

/-- Modelled from the spec: `HttpPeerOptions` of motya-config (fields as used by
`cli/builder.rs` and the router's accessors). -/
structure HttpPeerOptions where
  peer : HttpPeer
  prefix_path : String
  target_path : String
  matcher : RouteMatcher

/-- Modelled from the spec: `SimpleResponseConfig` of motya-config. -/
structure SimpleResponseConfig where
  http_code : Nat
  response_body : String
  prefix_path : String

/-- Modelled from the spec: motya-config's `Upstream`, a network peer or a synthetic
static response. -/
inductive Upstream where
  | Service (options : HttpPeerOptions)
  | Static (options : SimpleResponseConfig)

/-- `UpstreamContext` (chains omitted: chain resolution is not among the routed code). -/
structure UpstreamContext where
  upstream : Upstream
  balancer : Balancer

/-- `UpstreamContextTrait::get_prefix_path` for `UpstreamContext`. -/
def UpstreamContext.get_prefix_path : UpstreamContext → String
  | ⟨.Service o, _⟩ => o.prefix_path
  | ⟨.Static o, _⟩ => o.prefix_path

/-- `UpstreamContextTrait::get_route_type` for `UpstreamContext`: a `Static` upstream is
always routed `Exact`. -/
def UpstreamContext.get_route_type : UpstreamContext → RouteMatcher
  | ⟨.Service o, _⟩ => o.matcher
  | ⟨.Static _, _⟩ => .Exact

/-- `UpstreamContextTrait::get_balancer` for `UpstreamContext`. -/
def UpstreamContext.get_balancer (u : UpstreamContext) : Balancer :=
  u.balancer

end Motya

/-- The balancer used by the C3 witness: its selector appends the request path's bytes
to the scratch buffer, its backend selection always succeeds. -/
def balancerW : Motya.Balancer where
  selector := fun c s =>
    ({ c with selector_buf := c.selector_buf ++ s.path.data.map Char.toNat },
      c.selector_buf ++ s.path.data.map Char.toNat)
  select := fun _ => some ⟨⟨"10.0.0.1:80"⟩⟩

/-- The routed upstream used by the C3 witness: a `Prefix "/"` fallback route. -/
def upstreamW : Motya.UpstreamContext where
  upstream := .Service ⟨⟨"10.0.0.1:80"⟩, "/", "/", .Prefix⟩
  balancer := balancerW

/-- The router used by the C3 witness, built by `UpsteamRouter::build` from the single
fallback route. -/
def routerW : Motya.RouterM Motya.UpstreamContext :=
  (Motya.build Motya.UpstreamContext.get_prefix_path Motya.UpstreamContext.get_route_type
    [upstreamW]).toOption.getD []

namespace MotyaLoader

/-- The fields of motya-config's `SystemData` that `build_config` copies into the final
configuration. -/
structure SysData where
  threads_per_service : Nat
  daemonize : Bool
  upgrade_socket : Option String
  pid_file : Option String
deriving DecidableEq, Repr

/-- Modelled from the spec: a parsed KDL document as `ConfigLoader` consumes it — the
ordered `includes` paths (already resolved against the including file's directory and
canonicalised: path resolution is external filesystem behaviour) and the result of
parsing its `system` section (`none` when that section fails to parse; the section
parser itself is not among the provided sources). -/
structure LoadedDoc where
  includes : List String
  system : Option SysData
deriving DecidableEq, Repr

/-- `ConfigLoader`'s mutable state: the ordered document list and the visited-path set
(modelled as a list with membership checks). -/
structure LoaderState where
  documents : List LoadedDoc
  visited_paths : List String
deriving DecidableEq, Repr

/-- The `for path_str in raw_includes { self.load_recursive(...) }` loop: fold a load
step over the include paths, propagating failure. -/
def loadListWith (step : LoaderState → String → Option LoaderState) :
    LoaderState → List String → Option LoaderState
  | st, [] => some st
  | st, q :: qs =>
    match step st q with
    | none => none
    | some st' => loadListWith step st' qs

/-- `ConfigLoader::load_recursive`, with the filesystem (read + KDL parse; `none` =
unreadable or unparsable file) passed as a function and the recursion depth bounded by
fuel (the Rust recursion terminates because the visited set grows; any fuel larger than
the include-closure depth suffices). A path already visited is skipped before being read
or parsed; otherwise the path is marked visited, the includes are loaded recursively,
and the current document is pushed last. -/
def load_recursive (fs : String → Option LoadedDoc) (fuel : Nat) :
    LoaderState → String → Option LoaderState :=
  Nat.rec (motive := fun _ => LoaderState → String → Option LoaderState)
    (fun _ _ => none)
    (fun _ prev st path =>
      if path ∈ st.visited_paths then some st
      else
        match fs path with
        | none => none
        | some doc =>
          match loadListWith prev { st with visited_paths := path :: st.visited_paths }
              doc.includes with
          | none => none
          | some st2 => some { st2 with documents := st2.documents ++ [doc] })
    fuel

/-- The configuration fields `build_config` fills from the system section. -/
structure Config where
  threads_per_service : Nat
  daemonize : Bool
  upgrade_socket : Option String
  pid_file : Option String
deriving DecidableEq, Repr

/-- The four assignments `final_config.* = sys_data.*` of `build_config`. -/
def configFromSys (sys : SysData) : Config :=
  ⟨sys.threads_per_service, sys.daemonize, sys.upgrade_socket, sys.pid_file⟩

/-- `ConfigLoader::build_config`, restricted to the fields determined by the `system`
section: fails when no documents were loaded ("No configuration documents loaded"),
otherwise parses the `system` section of the LAST document — the entry point — only.
The definitions-merge and services-merge phases read every document but never these
fields; their section parsers are not among the provided sources and are elided. -/
def build_config (docs : List LoadedDoc) : Option Config :=
  match docs.getLast? with
  | none => none
  | some entry => entry.system.map configFromSys

/-- Relation between loader states before and after a successful (partial) load: some
`Nodup` list of previously unvisited paths was newly loaded, their parsed documents were
appended to the document list in that order, and they were added to the visited set. -/
def LoadInv (fs : String → Option LoadedDoc) (st st' : LoaderState) : Prop :=
  ∃ new : List String, new.Nodup ∧ (∀ q ∈ new, q ∉ st.visited_paths) ∧
    (∀ q ∈ new, (fs q).isSome) ∧
    st'.documents = st.documents ++ new.filterMap fs ∧
    (∀ q, q ∈ st'.visited_paths ↔ q ∈ st.visited_paths ∨ q ∈ new)

end MotyaLoader

/-- The filesystem used by the C2 and C7 witnesses: an entry point including one file,
each with its own `system` section. -/
def fsW : String → Option MotyaLoader.LoadedDoc := fun p =>
  if p = "main.kdl" then some ⟨["include.kdl"], some ⟨2, false, none, none⟩⟩
  else if p = "include.kdl" then
    some ⟨[], some ⟨7, true, some "/tmp/u.sock", some "/tmp/p.pid"⟩⟩
  else none

/-- The loader state reached from `fsW`'s entry point: the included document first, the
entry-point document last. -/
def stW : MotyaLoader.LoaderState :=
  ⟨[⟨[], some ⟨7, true, some "/tmp/u.sock", some "/tmp/p.pid"⟩⟩,
    ⟨["include.kdl"], some ⟨2, false, none, none⟩⟩],
   ["include.kdl", "main.kdl"]⟩

namespace River

/-- A KDL value (`kdl::KdlValue`), restricted to the variants the parser inspects. -/
inductive KdlValue where
  | str (s : String)
  | int (i : Int)
  | bool (b : Bool)
  | null
deriving DecidableEq, Repr

/-- `KdlValue::as_string`. -/
def KdlValue.as_string : KdlValue → Option String
  | .str s => some s
  | _ => none

/-- `KdlValue::as_integer` (the kdl crate stores `i64`; the model uses `Int`). -/
def KdlValue.as_integer : KdlValue → Option Int
  | .int i => some i
  | _ => none

/-- `KdlValue::as_bool`. -/
def KdlValue.as_bool : KdlValue → Option Bool
  | .bool b => some b
  | _ => none

/-- A `kdl::KdlEntry`: a `key=value` property when `name` is set, else a positional
argument. -/
structure KdlEntry where
  name : Option String
  value : KdlValue
deriving DecidableEq, Repr

/-- A `kdl::KdlNode`: name, entries, optional children block. -/
inductive KdlNode where
  | mk (name : String) (entries : List KdlEntry) (children : Option (List KdlNode))

/-- The node's name. -/
def KdlNode.name : KdlNode → String
  | .mk n _ _ => n

/-- The node's entries (positional arguments and properties). -/
def KdlNode.entries : KdlNode → List KdlEntry
  | .mk _ e _ => e

/-- The node's children block, when present. -/
def KdlNode.children : KdlNode → Option (List KdlNode)
  | .mk _ _ c => c

/-- A `kdl::KdlDocument` is its list of nodes. -/
abbrev KdlDocument := List KdlNode

/-- The external parsers the KDL extraction calls, passed as oracles: `std` socket
address parsing (`str::parse::<SocketAddr>` succeeding) and `regex` compilation
(`RegexShim::new` succeeding). -/
structure ExternEnv where
  isSocketAddr : String → Bool
  regexOk : String → Bool

/-- `KdlDocument::get`: the first node with the given name. -/
def docGet (doc : KdlDocument) (name : String) : Option KdlNode :=
  doc.find? (fun n => n.name == name)

/-- Modelled from the spec: `utils::required_child_doc` (config/kdl/utils.rs is not
among the provided sources) — the named child section must exist and have a children
block. -/
def required_child_doc (doc : KdlDocument) (name : String) : Except String KdlDocument :=
  match docGet doc name with
  | none => .error ("Missing section: '" ++ name ++ "'")
  | some n =>
    match n.children with
    | none => .error ("Section '" ++ name ++ "' should have children")
    | some c => .ok c

/-- Modelled from the spec: `utils::optional_child_doc` — the named child section's
children, when the section is present. -/
def optional_child_doc (doc : KdlDocument) (name : String) : Option KdlDocument :=
  (docGet doc name).bind KdlNode.children

/-- Modelled from the spec: `utils::wildcard_argless_child_docs` — every child node,
whatever its name, must carry no arguments and have a children block. -/
def wildcard_argless_child_docs (doc : KdlDocument) :
    Except String (List (String × KdlDocument)) :=
  doc.mapM (fun n =>
    if !n.entries.isEmpty then
      .error ("Section '" ++ n.name ++ "' should not have arguments")
    else
      match n.children with
      | none => .error ("Section '" ++ n.name ++ "' should have children")
      | some c => .ok (n.name, c))

/-- Modelled from the spec: `utils::data_nodes` — the child nodes, to be read through
`KdlNode.name`/`KdlNode.entries` like the Rust `(node, name, args)` triples. -/
def data_nodes (doc : KdlDocument) : List KdlNode :=
  doc

/-- Modelled from the spec: `utils::str_value_args` — each argument must be a
`key=value` property. -/
def str_value_args (entries : List KdlEntry) : Except String (List (String × KdlValue)) :=
  entries.mapM (fun e =>
    match e.name with
    | some k => .ok (k, e.value)
    | none => .error "Arguments should be key/value pairs")

/-- Modelled from the spec: `utils::str_str_args` — each argument must be a property
with a string value. -/
def str_str_args (entries : List KdlEntry) : Except String (List (String × String)) :=
  entries.mapM (fun e =>
    match e.name, e.value with
    | some k, .str v => .ok (k, v)
    | some k, _ => .error ("'" ++ k ++ "' should have a string value")
    | none, _ => .error "Arguments should be key/value pairs")

/-- Lookup in the map built by collecting pairs into a `HashMap`/`BTreeMap`: a later
binding for a key overwrites an earlier one. -/
def assocLast (l : List (String × α)) (k : String) : Option α :=
  (l.reverse.find? (fun e => e.1 == k)).map (fun e => e.2)

/-- Modelled from the spec: `utils::map_ensure_str` — an absent argument is fine, a
present one must hold a string. -/
def map_ensure_str (v : Option KdlValue) : Except String (Option String) :=
  match v with
  | none => .ok none
  | some (.str s) => .ok (some s)
  | some _ => .error "should be a string"

/-- Modelled from the spec: `utils::map_ensure_bool` — an absent argument is fine, a
present one must hold a bool. -/
def map_ensure_bool (v : Option KdlValue) : Except String (Option Bool) :=
  match v with
  | none => .ok none
  | some (.bool b) => .ok (some b)
  | some _ => .error "should be a bool"

/-- Modelled from the spec: `utils::extract_one_str_arg` — exactly one argument, holding
a string, mapped through `f` (`f` returning `none` is an error). -/
def extract_one_str_arg (name : String) (entries : List KdlEntry)
    (f : String → Option α) : Except String α :=
  match entries with
  | [e] =>
    match e.value with
    | .str s =>
      match f s with
      | some v => .ok v
      | none => .error ("Invalid value for '" ++ name ++ "'")
    | _ => .error ("'" ++ name ++ "' should have a string value")
  | _ => .error ("'" ++ name ++ "' should have exactly one argument")

/-- Modelled from the spec: `utils::extract_one_bool_arg` — exactly one argument,
holding a bool. -/
def extract_one_bool_arg (name : String) (entries : List KdlEntry) :
    Except String Bool :=
  match entries with
  | [e] =>
    match e.value with
    | .bool b => .ok b
    | _ => .error ("'" ++ name ++ "' should have a bool value")
  | _ => .error ("'" ++ name ++ "' should have exactly one argument")

/-- Modelled from the spec: `utils::extract_one_str_arg_with_kv_args` — one leading
string argument, then key=value string properties. -/
def extract_one_str_arg_with_kv_args (name : String) (entries : List KdlEntry)
    (f : String → Option α) : Except String (α × List (String × String)) :=
  match entries with
  | e :: rest =>
    match e.value with
    | .str s =>
      match f s with
      | some v => (str_str_args rest).map (fun kvs => (v, kvs))
      | none => .error ("Invalid value for '" ++ name ++ "'")
    | _ => .error ("'" ++ name ++ "' should have a string value")
  | [] => .error ("'" ++ name ++ "' should have at least one argument")

/-- `TlsConfig` of river's internal config. -/
structure TlsConfig where
  cert_path : String
  key_path : String
deriving DecidableEq, Repr

/-- `ListenerKind`: a TCP listener (with optional TLS and the offer-h2 flag) or a Unix
domain socket. -/
inductive ListenerKind where
  | Tcp (addr : String) (tls : Option TlsConfig) (offer_h2 : Bool)
  | Uds (path : String)
deriving DecidableEq, Repr

/-- `ListenerConfig`. -/
structure ListenerConfig where
  source : ListenerKind
deriving DecidableEq, Repr

/-- pingora's `ALPN` protocol selection. -/
inductive ALPN where
  | H1 : ALPN
  | H2 : ALPN
  | H2H1 : ALPN
deriving DecidableEq, Repr

/-- pingora's `HttpPeer`, reduced to the fields the parser sets. -/
structure HttpPeer where
  addr : String
  tls : Bool
  sni : String
  alpn : ALPN
deriving DecidableEq, Repr

/-- `HttpPeer::new` (a fresh peer's ALPN defaults to H1; the parser then assigns
`peer.options.alpn`). -/
def HttpPeer.new (addr : String) (tls : Bool) (sni : String) : HttpPeer :=
  ⟨addr, tls, sni, .H1⟩

/-- `SimpleResponse` of river's internal config. -/
structure SimpleResponse where
  http_code : Nat
  response_body : String
deriving DecidableEq, Repr

/-- river's internal `Upstream`: a network peer or a synthetic static response. -/
inductive Upstream where
  | Service (peer : HttpPeer)
  | Static (resp : SimpleResponse)
deriving DecidableEq, Repr

/-- `SelectionKind` of the load balancer. -/
inductive SelectionKind where
  | RoundRobin : SelectionKind
  | Random : SelectionKind
  | Fnv : SelectionKind
  | Ketama : SelectionKind
deriving DecidableEq, Repr

/-- Which `RequestSelector` function the parser chose (the functions themselves live in
`proxy/request_selector.rs`, not among the provided sources). -/
inductive RequestSelectorKind where
  | null_selector : RequestSelectorKind
  | uri_path_selector : RequestSelectorKind
  | source_addr_and_uri_path_selector : RequestSelectorKind
deriving DecidableEq, Repr

/-- `HealthCheckKind` (only `None` is recognised). -/
inductive HealthCheckKind where
  | None : HealthCheckKind
deriving DecidableEq, Repr

/-- `DiscoveryKind` (only `Static` is recognised). -/
inductive DiscoveryKind where
  | Static : DiscoveryKind
deriving DecidableEq, Repr

/-- `UpstreamOptions` (the `load-balance` result). -/
structure UpstreamOptions where
  selection : SelectionKind
  selector : RequestSelectorKind
  health_checks : HealthCheckKind
  discovery : DiscoveryKind
deriving DecidableEq, Repr

/-- `UpstreamOptions::default()`: round-robin, null selector, no health check, static
discovery. -/
def UpstreamOptions.default : UpstreamOptions :=
  ⟨.RoundRobin, .null_selector, .None, .Static⟩

/-- `MultiRaterConfig` of the multi-bucket rate limiter (`max_buckets` is a plain
`usize`; the three `NonZeroUsize` fields are modelled as `Nat` with the zero check done
where the Rust constructs the `NonZeroUsize`). -/
structure MultiRaterConfig where
  threads : Nat
  max_buckets : Nat
  max_tokens_per_bucket : Nat
  refill_interval_millis : Nat
  refill_qty : Nat
deriving DecidableEq, Repr

/-- `SingleInstanceConfig` of the single-bucket rate limiter. -/
structure SingleInstanceConfig where
  max_tokens_per_bucket : Nat
  refill_interval_millis : Nat
  refill_qty : Nat
deriving DecidableEq, Repr

/-- `MultiRequestKeyKind`: keyed by source IP or by a URI regex (the compiled
`RegexShim` is modelled by its pattern string). -/
inductive MultiRequestKeyKind where
  | SourceIp : MultiRequestKeyKind
  | Uri (pattern : String) : MultiRequestKeyKind
deriving DecidableEq, Repr

/-- `SingleRequestKeyKind`. -/
inductive SingleRequestKeyKind where
  | UriGroup (pattern : String) : SingleRequestKeyKind
deriving DecidableEq, Repr

/-- `AllRateConfig`: a multi-bucket or single-bucket rule. -/
inductive AllRateConfig where
  | Multi (kind : MultiRequestKeyKind) (config : MultiRaterConfig)
  | Single (kind : SingleRequestKeyKind) (config : SingleInstanceConfig)
deriving DecidableEq, Repr

/-- `RateLimitingConfig`. -/
structure RateLimitingConfig where
  rules : List AllRateConfig
deriving DecidableEq, Repr

/-- `PathControl`: the three filter lists (each filter a string→string map, modelled as
the list of key/value pairs the Rust collects into a `BTreeMap`). -/
structure PathControl where
  request_filters : List (List (String × String))
  upstream_request_filters : List (List (String × String))
  upstream_response_filters : List (List (String × String))
deriving DecidableEq, Repr

/-- `PathControl::default()`. -/
def PathControl.default : PathControl :=
  ⟨[], [], []⟩

/-- `ProxyConfig` as built by `extract_service`. -/
structure ProxyConfig where
  name : String
  listeners : List ListenerConfig
  upstreams : List Upstream
  path_control : PathControl
  upstream_options : UpstreamOptions
  rate_limiting : RateLimitingConfig
deriving DecidableEq, Repr

/-- `FileServerConfig` as built by `extract_file_server`. -/
structure FileServerConfig where
  name : String
  listeners : List ListenerConfig
  base_path : Option String
deriving DecidableEq, Repr

/-- `SystemData` of config/kdl/mod.rs. -/
structure SystemData where
  threads_per_service : Nat
  daemonize : Bool
  upgrade_socket : Option String
  pid_file : Option String
deriving DecidableEq, Repr

/-- `SystemData::default()`: 8 threads per service, not daemonized, no upgrade socket,
no pid file. -/
def SystemData.default : SystemData :=
  ⟨8, false, none, none⟩

/-- river's internal `Config` (the fields the KDL parser fills). -/
structure Config where
  threads_per_service : Nat
  daemonize : Bool
  upgrade_socket : Option String
  pid_file : Option String
  basic_proxies : List ProxyConfig
  file_servers : List FileServerConfig
deriving DecidableEq, Repr

/-- `extract_listener` (config/kdl/mod.rs): a node whose name parses as a socket address
is a TCP listener with optional TLS — `cert-path`/`key-path` both-or-neither, `offer-h2`
requires TLS and defaults to true under TLS; any other name is a Unix domain socket path
(`PathBuf` parsing is infallible, so the final Rust error branch is unreachable). -/
def extract_listener (env : ExternEnv) (name : String) (entries : List KdlEntry) :
    Except String ListenerConfig := do
  let args ← str_value_args entries
  if env.isSocketAddr name then
    let cert_path ← map_ensure_str (assocLast args "cert-path")
    let key_path ← map_ensure_str (assocLast args "key-path")
    let offer_h2 ← map_ensure_bool (assocLast args "offer-h2")
    match cert_path, key_path, offer_h2 with
    | none, none, none => pure ⟨.Tcp name none false⟩
    | none, some _, _ | some _, none, _ =>
      .error "'cert-path' and 'key-path' must either BOTH be present, or NEITHER should be present"
    | none, none, some _ =>
      .error "'offer-h2' requires TLS, specify 'cert-path' and 'key-path'"
    | some cpath, some kpath, h2 =>
      pure ⟨.Tcp name (some ⟨cpath, kpath⟩) (h2.getD true)⟩
  else
    pure ⟨.Uds name⟩

/-- `http::StatusCode::from_str`: exactly three ASCII digits forming a value of at least
100. -/
def status_from_str (s : String) : Option Nat :=
  match s.data with
  | [a, b, c] =>
    if a.isDigit && b.isDigit && c.isDigit then
      let n := (a.toNat - 48) * 100 + (b.toNat - 48) * 10 + (c.toNat - 48)
      if 100 ≤ n then some n else none
    else none
  | _ => none

/-- `parse_proto_value` (config/kdl/parser.rs): `h1-or-h2` is accepted as meaning
`h2-or-h1`. -/
def parse_proto_value (value : String) : Except String (Option ALPN) :=
  match value with
  | "h1-only" => .ok (some .H1)
  | "h2-only" => .ok (some .H2)
  | "h1-or-h2" => .ok (some .H2H1)
  | "h2-or-h1" => .ok (some .H2H1)
  | other =>
    .error ("'proto' should be one of 'h1-only', 'h2-only', or 'h2-or-h1', found '"
      ++ other ++ "'")

/-- `extract_proto` (config/kdl/parser.rs). -/
def extract_proto (args : List (String × String)) : Except String (Option ALPN) :=
  match assocLast args "proto" with
  | none => .ok none
  | some value => parse_proto_value value

/-- `extract_connector` (config/kdl/parser.rs): a `return` node builds a `Static`
upstream from `code` (default "200") and `response` (default ""); otherwise the node
name must be a socket address and the `proto`/`tls-sni` combination determines TLS, SNI
and ALPN of the peer. -/
def extract_connector (env : ExternEnv) (name : String) (entries : List KdlEntry) :
    Except String Upstream := do
  let args ← str_str_args entries
  if name == "return" then
    let code := (assocLast args "code").getD "200"
    let response := (assocLast args "response").getD ""
    match status_from_str code with
    | none => .error "Not a valid http code"
    | some http_code => pure (.Static ⟨http_code, response⟩)
  else
    if env.isSocketAddr name then
      let proto ← extract_proto args
      let tls_sni := assocLast args "tls-sni"
      match proto, tls_sni with
      | none, none => pure (.Service { HttpPeer.new name false "" with alpn := .H1 })
      | some .H1, none => pure (.Service { HttpPeer.new name false "" with alpn := .H1 })
      | none, some sni => pure (.Service { HttpPeer.new name true sni with alpn := .H2H1 })
      | some _, none => .error "'tls-sni' is required for HTTP2 support"
      | some p, some sni => pure (.Service { HttpPeer.new name true sni with alpn := p })
    else
      .error "Not a valid socket address"

/-- The request as a filter sees it; `SimpleResponse::request_filter` ignores it. -/
structure Request where
  method : String
  path : String
deriving DecidableEq, Repr

/-- The observable effects of `SimpleResponse::request_filter` on the downstream
session: status, appended headers, written body, and the keepalive setting
(`set_keepalive(None)` disables keepalive). -/
structure SessionEffects where
  status : Nat
  headers : List (String × String)
  body : String
  keepalive : Option Nat
deriving DecidableEq, Repr

/-- `SimpleResponse::request_filter` (proxy/simple_response.rs): build a response header
from the configured code, append `Content-Type: text/plain; charset=utf-8`, write the
configured body, and disable keepalive — independently of the request. -/
def SimpleResponse.request_filter (resp : SimpleResponse) (_ : Request) :
    SessionEffects :=
  { status := resp.http_code
    headers := [("Content-Type", "text/plain; charset=utf-8")]
    body := resp.response_body
    keepalive := none }

/-- `extract_load_balance`'s loop state: the three optional settings plus the selector
function chosen so far (initially `null_selector`). -/
structure LbState where
  selection : Option SelectionKind
  health : Option HealthCheckKind
  discover : Option DiscoveryKind
  selector : RequestSelectorKind

/-- The `selection` argument values `extract_load_balance` recognises. -/
def lbSelParse (s : String) : Option SelectionKind :=
  match s with
  | "RoundRobin" => some .RoundRobin
  | "Random" => some .Random
  | "FNV" => some .Fnv
  | "Ketama" => some .Ketama
  | _ => none

/-- One iteration of `extract_load_balance`'s item loop. -/
def lbStep (st : LbState) (n : KdlNode) : Except String LbState := do
  if n.name == "selection" then
    let selkvs ← extract_one_str_arg_with_kv_args "selection" n.entries lbSelParse
    match selkvs.1 with
    | .RoundRobin => pure { st with selection := some selkvs.1 }
    | .Random => pure { st with selection := some selkvs.1 }
    | _ =>
      match assocLast selkvs.2 "key" with
      | none => .error "selection requires a 'key' argument"
      | some "UriPath" =>
        pure { st with
                selection := some selkvs.1
                selector := .uri_path_selector }
      | some "SourceAddrAndUriPath" =>
        pure { st with
                selection := some selkvs.1
                selector := .source_addr_and_uri_path_selector }
      | some other => .error ("Unknown key: '" ++ other ++ "'")
  else if n.name == "health-check" then
    let h ← extract_one_str_arg "health-check" n.entries
      (fun v => if v == "None" then some HealthCheckKind.None else none)
    pure { st with health := some h }
  else if n.name == "discovery" then
    let d ← extract_one_str_arg "discovery" n.entries
      (fun v => if v == "Static" then some DiscoveryKind.Static else none)
    pure { st with discover := some d }
  else
    .error ("Unknown setting: '" ++ n.name ++ "'")

/-- `extract_load_balance` (config/kdl/mod.rs): fold the settings, then default
selection to RoundRobin, health checks to None and discovery to Static. -/
def extract_load_balance (items : KdlDocument) : Except String UpstreamOptions := do
  let st ← items.foldlM lbStep ⟨none, none, none, .null_selector⟩
  pure ⟨st.selection.getD .RoundRobin, st.selector, st.health.getD .None,
    st.discover.getD .Static⟩

/-- `ConfigParser::process_connectors_node` (config/kdl/parser.rs): each child of
`connectors` is a `load-balance` block (at most one) or a connector; at least one
connector is required. -/
def process_connectors_node (env : ExternEnv) (node : KdlDocument) :
    Except String (List Upstream × Option UpstreamOptions) := do
  let conn_node ← required_child_doc node "connectors"
  let st ← (data_nodes conn_node).foldlM
    (fun (st : List Upstream × Option UpstreamOptions) n => do
      if n.name == "load-balance" then
        if st.2.isSome then .error "Duplicate 'load-balance' section"
        else
          match n.children with
          | none => .error "'load-balance' should have children"
          | some ch => do
            let lb ← extract_load_balance ch
            pure (st.1, some lb)
      else do
        let conn ← extract_connector env n.name n.entries
        pure (st.1 ++ [conn], st.2)) ([], none)
  if st.1.isEmpty then .error "We require at least one connector"
  else pure st

/-- `collect_filters` (config/kdl/mod.rs): every node must be named `filter`; its
properties become the filter's string→string settings. -/
def collect_filters (node : KdlDocument) : Except String (List (List (String × String))) :=
  (data_nodes node).mapM (fun n =>
    if n.name != "filter" then .error "Invalid Filter Rule"
    else str_str_args n.entries)

/-- `extract_path_control` (config/kdl/mod.rs): the optional `path-control` section with
its three optional filter lists. -/
def extract_path_control (node : KdlDocument) : Except String PathControl := do
  match optional_child_doc node "path-control" with
  | none => pure PathControl.default
  | some pc_node => do
    let rf ← match optional_child_doc pc_node "request-filters" with
      | none => pure []
      | some d => collect_filters d
    let urf ← match optional_child_doc pc_node "upstream-request" with
      | none => pure []
      | some d => collect_filters d
    let uresp ← match optional_child_doc pc_node "upstream-response" with
      | none => pure []
      | some d => collect_filters d
    pure ⟨rf, urf, uresp⟩

/-- `make_rate_limiter`'s `take_num` closure: the key must be present and hold an
integer convertible to `usize` (non-negative; an `i64` always fits a 64-bit `usize`). -/
def take_num (args : List (String × KdlValue)) (key : String) : Except String Nat :=
  match assocLast args key with
  | none => .error ("Missing key: '" ++ key ++ "'")
  | some v =>
    match v.as_integer with
    | some i =>
      if 0 ≤ i then .ok i.toNat
      else .error ("'" ++ key ++ " should have a positive integer value")
    | none => .error ("'" ++ key ++ " should have a positive integer value")

/-- `make_rate_limiter`'s `take_str` closure. -/
def take_str (args : List (String × KdlValue)) (key : String) : Except String String :=
  match assocLast args key with
  | none => .error ("Missing key: '" ++ key ++ "'")
  | some v =>
    match v.as_string with
    | some s => .ok s
    | none => .error ("'" ++ key ++ " should have a string value")

/-- `NonZeroUsize::new(n).ok_or_else(...)`: reject zero with the given message. -/
def nonZeroOr (msg : String) (n : Nat) : Except String Nat :=
  if n = 0 then .error msg else .ok n

/-- `make_rate_limiter`'s `regex_pattern` closure: the `pattern` key must be present,
a string, and compile as a regex. -/
def regex_pattern (env : ExternEnv) (args : List (String × KdlValue)) :
    Except String String := do
  let pattern ← take_str args "pattern"
  if env.regexOk pattern then pure pattern
  else .error ("'" ++ pattern ++ " should be a valid regular expression")

/-- `make_rate_limiter` (config/kdl/mod.rs): common fields `kind`,
`tokens-per-bucket`, `refill-qty`, `refill-rate-ms` (the latter three positive via
`NonZeroUsize`), then per-kind fields — `max-buckets` (a plain `usize`, no zero check)
for the multi kinds, `pattern` for the regex kinds. -/
def make_rate_limiter (threads_per_service : Nat) (env : ExternEnv)
    (args : List (String × KdlValue)) : Except String AllRateConfig := do
  let kind ← take_str args "kind"
  let t0 ← take_num args "tokens-per-bucket"
  let tokens_per_bucket ← nonZeroOr "'tokens-per-bucket' must be a positive" t0
  let q0 ← take_num args "refill-qty"
  let refill_qty ← nonZeroOr "'refill-qty' must be a positive" q0
  let r0 ← take_num args "refill-rate-ms"
  let refill_rate_ms ← nonZeroOr "'refill-rate-ms' must be a positive" r0
  if kind == "source-ip" then
    let max_buckets ← take_num args "max-buckets"
    pure (.Multi .SourceIp
      ⟨threads_per_service, max_buckets, tokens_per_bucket, refill_rate_ms, refill_qty⟩)
  else if kind == "specific-uri" then
    let pattern ← regex_pattern env args
    let max_buckets ← take_num args "max-buckets"
    pure (.Multi (.Uri pattern)
      ⟨threads_per_service, max_buckets, tokens_per_bucket, refill_rate_ms, refill_qty⟩)
  else if kind == "any-matching-uri" then
    let pattern ← regex_pattern env args
    pure (.Single (.UriGroup pattern) ⟨tokens_per_bucket, refill_rate_ms, refill_qty⟩)
  else
    .error ("'" ++ kind ++ " is not a known kind of rate limiting")

/-- `extract_file_server` (config/kdl/mod.rs): required non-empty `listeners`, required
`file-server` section with optional `base-path`. -/
def extract_file_server (env : ExternEnv) (name : String) (node : KdlDocument) :
    Except String FileServerConfig := do
  let listener_node ← required_child_doc node "listeners"
  let listeners := data_nodes listener_node
  if listeners.isEmpty then .error "nonzero listeners required"
  else do
    let list_cfgs ← listeners.mapM (fun n => extract_listener env n.name n.entries)
    let fs_node ← required_child_doc node "file-server"
    let base_path ←
      match assocLast ((data_nodes fs_node).map (fun n => (n.name, n.entries)))
          "base-path" with
      | none => pure none
      | some bpargs =>
        (extract_one_str_arg "base-path" bpargs (fun a => some a)).map some
    pure ⟨name, list_cfgs, base_path⟩

/-- `extract_service` (config/kdl/mod.rs): required non-empty `listeners`, connectors
via `process_connectors_node`, optional `path-control` and `rate-limiting` (whose nodes
must be named `rule`). -/
def extract_service (env : ExternEnv) (threads_per_service : Nat) (name : String)
    (node : KdlDocument) : Except String ProxyConfig := do
  let listener_node ← required_child_doc node "listeners"
  let listeners := data_nodes listener_node
  if listeners.isEmpty then .error "nonzero listeners required"
  else do
    let list_cfgs ← listeners.mapM (fun n => extract_listener env n.name n.entries)
    let conns ← process_connectors_node env node
    let pc ← extract_path_control node
    let rules ← match optional_child_doc node "rate-limiting" with
      | none => pure []
      | some rl_node =>
        (data_nodes rl_node).mapM (fun n =>
          if n.name == "rule" then do
            let vals ← str_value_args n.entries
            make_rate_limiter threads_per_service env vals
          else .error ("Unknown name: '" ++ n.name ++ "'"))
    pure ⟨name, list_cfgs, conns.1, pc, conns.2.getD UpstreamOptions.default, ⟨rules⟩⟩

/-- The proxy-service child-section names of `extract_services`. -/
def proxy_node_set : List String :=
  ["listeners", "connectors", "path-control", "rate-limiting"]

/-- The file-server child-section names of `extract_services`. -/
def file_server_node_set : List String :=
  ["listeners", "file-server"]

/-- The duplicate-detecting fingerprint of a service's child-section names, in insertion
order (the Rust `HashSet::insert` loop). -/
def fingerprintOf (nodes : KdlDocument) : Except String (List String) :=
  nodes.foldlM (fun acc n =>
    if acc.contains n.name then .error ("Duplicate section: '" ++ n.name ++ "'!")
    else .ok (acc ++ [n.name])) []

/-- `HashSet::is_subset` (not strict: equal sets are subsets). -/
def subsetOf (l s : List String) : Bool :=
  l.all s.contains

/-- The names of a fingerprint that belong to neither section-name set, joined with
`", "` (the `HashSet` iteration order is unspecified in Rust; the model uses the
fingerprint's insertion order). -/
def unknownSections (names : List String) : String :=
  String.intercalate ", "
    (names.filter (fun n => !(proxy_node_set ++ file_server_node_set).contains n))

/-- One service of the `extract_services` loop: fingerprint the child sections, then
classify — a subset of the proxy sections parses as a proxy, else a subset of the
file-server sections parses as a file server, else the unknown sections are reported. -/
def serviceStep (env : ExternEnv) (tps : Nat)
    (acc : List ProxyConfig × List FileServerConfig) (svc : String × KdlDocument) :
    Except String (List ProxyConfig × List FileServerConfig) := do
  let names ← fingerprintOf svc.2
  if subsetOf names proxy_node_set then
    let p ← extract_service env tps svc.1 svc.2
    pure (acc.1 ++ [p], acc.2)
  else if subsetOf names file_server_node_set then
    let f ← extract_file_server env svc.1 svc.2
    pure (acc.1, acc.2 ++ [f])
  else
    .error ("Unknown configuration section(s): '" ++ unknownSections names ++ "'")

/-- `extract_services` (config/kdl/mod.rs). -/
def extract_services (env : ExternEnv) (tps : Nat) (doc : KdlDocument) :
    Except String (List ProxyConfig × List FileServerConfig) := do
  let service_node ← required_child_doc doc "services"
  let services ← wildcard_argless_child_docs service_node
  let res ← services.foldlM (serviceStep env tps) ([], [])
  if res.1.isEmpty && res.2.isEmpty then .error "No services defined"
  else pure res

/-- `extract_threads_per_service` (config/kdl/mod.rs): absent node defaults to 8; the
node must have exactly one entry, an integer, convertible to `usize` (non-negative). -/
def extract_threads_per_service (sys : KdlDocument) : Except String Nat :=
  match docGet sys "threads-per-service" with
  | none => .ok 8
  | some tps =>
    match tps.entries with
    | [tps_node] =>
      match tps_node.value.as_integer with
      | none => .error "system > threads-per-service should be an integer"
      | some v =>
        if 0 ≤ v then .ok v.toNat
        else .error "system > threads-per-service should fit in a usize"
    | _ => .error "system > threads-per-service should have exactly one entry"

/-- `extract_system_data` (config/kdl/mod.rs): a missing `system` section yields the
defaults; otherwise threads-per-service, `daemonize` (default false), `upgrade-socket`
and `pid-file` (default absent). -/
def extract_system_data (doc : KdlDocument) : Except String SystemData := do
  match optional_child_doc doc "system" with
  | none => pure SystemData.default
  | some sys => do
    let tps ← extract_threads_per_service sys
    let daemonize ← match docGet sys "daemonize" with
      | some n => extract_one_bool_arg "daemonize" n.entries
      | none => pure false
    let upgrade_socket ← match docGet sys "upgrade-socket" with
      | some n => (extract_one_str_arg "upgrade-socket" n.entries (fun s => some s)).map some
      | none => pure none
    let pid_file ← match docGet sys "pid-file" with
      | some n => (extract_one_str_arg "pid-file" n.entries (fun s => some s)).map some
      | none => pure none
    pure ⟨tps, daemonize, upgrade_socket, pid_file⟩

/-- `TryFrom<&KdlDocument> for Config` (and the identical `ConfigParser::parse`):
system data first, then the services, classified with the system's
threads-per-service. -/
def config_try_from (env : ExternEnv) (doc : KdlDocument) : Except String Config := do
  let sys ← extract_system_data doc
  let services ← extract_services env sys.threads_per_service doc
  pure ⟨sys.threads_per_service, sys.daemonize, sys.upgrade_socket, sys.pid_file,
    services.1, services.2⟩

end River

/-- The concrete rate-limiting rule of C4: kind `source-ip` with all three common
numeric fields 1 and `max-buckets` 0. -/
def argsRL : List (String × River.KdlValue) :=
  [("kind", .str "source-ip"), ("tokens-per-bucket", .int 1), ("refill-qty", .int 1),
   ("refill-rate-ms", .int 1), ("max-buckets", .int 0)]

/-- The socket-address oracle used by the concrete parser examples. -/
def envW : River.ExternEnv :=
  ⟨fun s => s == "127.0.0.1:80" || s == "127.0.0.1:8000", fun _ => true⟩

/-- The C5 counterexample service: one of each of the four proxy child sections — the
full proxy section set, not a strict subset of it. -/
def svcFull : River.KdlDocument :=
  [.mk "listeners" [] (some [.mk "127.0.0.1:80" [] none]),
   .mk "connectors" [] (some [.mk "127.0.0.1:8000" [] none]),
   .mk "path-control" [] (some []),
   .mk "rate-limiting" [] (some [])]

/-- The C6 counterexample document: `system { threads-per-service 0 }` plus a minimal
valid service. -/
def docTps0 : River.KdlDocument :=
  [.mk "system" [] (some [.mk "threads-per-service" [⟨none, .int 0⟩] none]),
   .mk "services" [] (some [.mk "Example" [] (some
     [.mk "listeners" [] (some [.mk "127.0.0.1:80" [] none]),
      .mk "connectors" [] (some [.mk "127.0.0.1:8000" [] none])])])]

namespace Motya

/-- `splitSlash` always yields at least one segment. -/
theorem splitSlash_ne_nil (l : List Char) : splitSlash l ≠ [] := by
  cases l with
  | nil => simp [splitSlash]
  | cons c cs =>
    simp only [splitSlash]
    split
    · simp
    · split <;> simp

/-- Rejoining the segments of a string recovers the string: `splitSlash` is injective. -/
theorem joinSlash_splitSlash (l : List Char) : joinSlash (splitSlash l) = l := by
  induction l with
  | nil => rfl
  | cons c cs ih =>
    simp only [splitSlash]
    by_cases hc : c = '/'
    · rw [if_pos hc]
      cases hs : splitSlash cs with
      | nil => exact absurd hs (splitSlash_ne_nil cs)
      | cons t ts =>
        rw [hs] at ih
        simp [joinSlash, ih, hc]
    · rw [if_neg hc]
      cases hs : splitSlash cs with
      | nil => exact absurd hs (splitSlash_ne_nil cs)
      | cons t ts =>
        rw [hs] at ih
        cases ts with
        | nil =>
          simp [joinSlash] at ih
          simp [joinSlash, ih]
        | cons u us =>
          simp [joinSlash] at ih ⊢
          exact ih

/-- Every character of a segment of `splitSlash l` is a character of `l`. -/
theorem splitSlash_chars {l s : List Char} (hs : s ∈ splitSlash l) :
    ∀ c ∈ s, c ∈ l := by
  induction l generalizing s with
  | nil =>
    intro c hc
    simp [splitSlash] at hs
    subst hs
    simp at hc
  | cons a as ih =>
    intro c hc
    simp only [splitSlash] at hs
    by_cases ha : a = '/'
    · rw [if_pos ha] at hs
      rcases List.mem_cons.1 hs with h | h
      · subst h; simp at hc
      · exact List.mem_cons_of_mem _ (ih h c hc)
    · rw [if_neg ha] at hs
      cases hsp : splitSlash as with
      | nil => exact absurd hsp (splitSlash_ne_nil as)
      | cons t ts =>
        rw [hsp] at hs
        rcases List.mem_cons.1 hs with h | h
        · subst h
          rcases List.mem_cons.1 hc with h2 | h2
          · subst h2; exact List.mem_cons_self _ _
          · have ht : t ∈ splitSlash as := by rw [hsp]; exact List.mem_cons_self _ _
            exact List.mem_cons_of_mem _ (ih ht c h2)
        · have hss : s ∈ splitSlash as := by
            rw [hsp]; exact List.mem_cons_of_mem _ h
          exact List.mem_cons_of_mem _ (ih hss c hc)

/-- A brace-free segment parses as a static segment. -/
theorem parseSeg_braceless {s : List Char} (h : s.any hasBraceChar = false) :
    parseSeg s = some (.lit s) := by
  simp [parseSeg, h]

/-- Brace-free segments parse as the corresponding static segments. -/
theorem parseSegs_lits {L : List (List Char)}
    (h : ∀ s ∈ L, s.any hasBraceChar = false) :
    parseSegs L = some (L.map PatSeg.lit) := by
  induction L with
  | nil => rfl
  | cons s L ih =>
    simp only [parseSegs, parseSeg_braceless (h s (List.mem_cons_self _ _)),
      ih (fun t ht => h t (List.mem_cons_of_mem _ ht)), List.map]

/-- A template of static segments has its catch-all (there is none) only last. -/
theorem catchAllOnlyLast_lits : ∀ L : List (List Char),
    catchAllOnlyLast (L.map PatSeg.lit) = true
  | [] => rfl
  | [_] => rfl
  | a :: b :: m => by
    have := catchAllOnlyLast_lits (b :: m)
    simpa [catchAllOnlyLast] using this

/-- A brace-free pattern parses as the static template of its segments. -/
theorem parsePattern_braceless {p : String} (h : p.data.any hasBraceChar = false) :
    parsePattern p = some ((splitSlash p.data).map PatSeg.lit) := by
  have hall : ∀ s ∈ splitSlash p.data, s.any hasBraceChar = false := by
    intro s hs
    rw [List.any_eq_false]
    intro c hc
    exact (List.any_eq_false.1 h) c (splitSlash_chars hs c hc)
  simp [parsePattern, parseSegs_lits hall, catchAllOnlyLast_lits]

/-- A fully static template matches exactly the segment lists equal to its own. -/
theorem segsMatch_lits : ∀ L M : List (List Char),
    (segsMatch (L.map PatSeg.lit) M = true) ↔ L = M := by
  intro L
  induction L with
  | nil =>
    intro M
    cases M with
    | nil => simp [segsMatch]
    | cons t ts => simp [segsMatch]
  | cons a L ih =>
    intro M
    cases M with
    | nil => simp [segsMatch]
    | cons t ts =>
      have hred : segsMatch (PatSeg.lit a :: L.map PatSeg.lit) (t :: ts) =
          (decide (a = t) && segsMatch (L.map PatSeg.lit) ts) := rfl
      rw [List.map_cons, hred]
      simp [ih ts]

/-- Strings with equal character lists are equal. -/
theorem stringDataEq {a b : String} (h : a.data = b.data) : a = b := by
  cases a
  cases b
  exact congrArg String.mk h

end Motya

/-- C1 counterexample: a route inserted with matcher `Exact` at path `/custom/{*foo}`
(the explicit-wildcard form the spec allows callers to use) is returned for the lookup
`/custom/bar`, a path different from the inserted one — exactly the repository's own
`test_manual_wildcard_override` test. So an `Exact` route does not always match only the
identical path. -/
theorem upstream_router_exact_wildcard_matches_other_path :
    ((Motya.build Prod.fst Prod.snd
        [("/custom/{*foo}", Motya.RouteMatcher.Exact)]).map
      (fun rt => (Motya.get_upstream_by_path rt "/custom/bar").map Prod.fst)
      = .ok (some "/custom/{*foo}")) ∧ ("/custom/bar" : String) ≠ "/custom/{*foo}" :=
  ⟨rfl, by decide⟩

/-- C1 (amended): a route inserted with matcher `Exact` matches only the identical path
provided its path contains no brace-delimited parameter segment — neither a named
`{name}` parameter (which matches any one non-empty segment, e.g. `/user/{id}` matches
`/user/42`) nor a `{*name}` catch-all; `build` hands `Router::insert` exactly the raw
path for `Exact` and, for `Prefix` on path `p`, `p`-with-trailing-slash-trimmed followed
by `/{*catch_all}` (or `/{*catch_all}` when the trimmed path is empty); and with routes
{Exact "/health", Prefix "/api", Prefix "/"}, `get_upstream_by_path` returns "/health"
for "/health", "/" for "/health/foo", "/api" for "/api/users" and "/api", and "/" for
"/random/stuff". -/
theorem upstream_router_modes_amended :
    (∀ p : String, Motya.insertedPattern p Motya.RouteMatcher.Exact = p) ∧
    (∀ p : String, Motya.insertedPattern p Motya.RouteMatcher.Prefix =
      (if Motya.trimTrailingSlashes p = "" then "/{*catch_all}"
       else Motya.trimTrailingSlashes p ++ "/{*catch_all}")) ∧
    (∀ v : String × Motya.RouteMatcher,
      Motya.build Prod.fst Prod.snd [v] =
        Motya.routerInsert [] (Motya.insertedPattern v.1 v.2) v) ∧
    (∀ pat path : String, pat.data.any Motya.hasBraceChar = false →
      (Motya.patternMatches pat path = true ↔ path = pat)) ∧
    ((Motya.build Prod.fst Prod.snd
        [("/health", Motya.RouteMatcher.Exact), ("/api", Motya.RouteMatcher.Prefix),
          ("/", Motya.RouteMatcher.Prefix)]).map
      (fun rt => ["/health", "/health/foo", "/api/users", "/api", "/random/stuff"].map
        (fun p => (Motya.get_upstream_by_path rt p).map Prod.fst))
      = .ok [some "/health", some "/", some "/api", some "/api", some "/"]) ∧
    ((Motya.build Prod.fst Prod.snd [("/user/{id}", Motya.RouteMatcher.Exact)]).map
      (fun rt => (Motya.get_upstream_by_path rt "/user/42").map Prod.fst)
      = .ok (some "/user/{id}")) := by
  refine ⟨fun p => rfl, fun p => rfl, fun v => ?_, fun pat path hnb => ?_, rfl, rfl⟩
  · simp only [Motya.build, List.foldlM]
    exact bind_pure _
  · unfold Motya.patternMatches
    rw [Motya.parsePattern_braceless hnb]
    rw [Motya.segsMatch_lits]
    constructor
    · intro heq
      have hjoin := congrArg Motya.joinSlash heq
      rw [Motya.joinSlash_splitSlash, Motya.joinSlash_splitSlash] at hjoin
      exact (Motya.stringDataEq hjoin).symm
    · intro heq
      subst heq
      rfl

/-- C1 witness: the amended `Exact` clause applied at the brace-free pattern "/health"
and the lookup path "/health/foo". -/
theorem upstream_router_modes_amended_witness :
    ("/health" : String).data.any Motya.hasBraceChar = false ∧
    (Motya.patternMatches "/health" "/health/foo" = true ↔
      ("/health/foo" : String) = "/health") :=
  ⟨rfl, upstream_router_modes_amended.2.2.2.1 "/health" "/health/foo" rfl⟩

/-- C3: whenever the request path matches a route, `pick_peer` returns with the
per-request selector scratch buffer cleared (length 0), on the success path and on the
no-backend error path alike. -/
theorem pick_peer_clears_selector_buf {T : Type}
    (getBalancer : T → Motya.Balancer) (router : Motya.RouterM T)
    (ctx : Motya.ContextInfo) (session : Motya.SessionInfo)
    (h : (Motya.get_upstream_by_path router session.path).isSome = true) :
    (Motya.pick_peer getBalancer router ctx session).1.selector_buf = [] := by
  unfold Motya.pick_peer
  cases hu : Motya.get_upstream_by_path router session.path with
  | none => rw [hu] at h; simp at h
  | some u =>
    cases hb : (getBalancer u).select ((getBalancer u).selector ctx session).2 <;>
      simp [hu, hb]

/-- C3 witness: on a concrete routed request with a non-empty scratch buffer, `pick_peer`
returns with the buffer cleared. -/
theorem pick_peer_clears_selector_buf_witness :
    (Motya.get_upstream_by_path routerW (Motya.SessionInfo.mk "/foo").path).isSome = true ∧
    (Motya.pick_peer Motya.UpstreamContext.get_balancer routerW
        (Motya.ContextInfo.mk [1, 2, 3]) (Motya.SessionInfo.mk "/foo")).1.selector_buf = [] :=
  ⟨rfl, pick_peer_clears_selector_buf _ _ _ _ rfl⟩

namespace MotyaLoader

theorem load_recursive_zero (fs : String → Option LoadedDoc) (st : LoaderState)
    (path : String) : load_recursive fs 0 st path = none :=
  rfl

theorem load_recursive_succ (fs : String → Option LoadedDoc) (n : Nat) (st : LoaderState)
    (path : String) :
    load_recursive fs (n + 1) st path =
      (if path ∈ st.visited_paths then some st
       else
         match fs path with
         | none => none
         | some doc =>
           match loadListWith (load_recursive fs n)
               { st with visited_paths := path :: st.visited_paths } doc.includes with
           | none => none
           | some st2 => some { st2 with documents := st2.documents ++ [doc] }) :=
  rfl

theorem LoadInv.refl (fs : String → Option LoadedDoc) (st : LoaderState) :
    LoadInv fs st st :=
  ⟨[], List.nodup_nil, by simp, by simp, by simp, by simp⟩

theorem LoadInv.trans {fs : String → Option LoadedDoc} {st st1 st2 : LoaderState}
    (h1 : LoadInv fs st st1) (h2 : LoadInv fs st1 st2) : LoadInv fs st st2 := by
  obtain ⟨a, ha_nd, ha_nv, ha_some, ha_docs, ha_vis⟩ := h1
  obtain ⟨b, hb_nd, hb_nv, hb_some, hb_docs, hb_vis⟩ := h2
  refine ⟨a ++ b, ?_, ?_, ?_, ?_, ?_⟩
  · rw [List.nodup_append]
    exact ⟨ha_nd, hb_nd, fun q hqa hqb => hb_nv q hqb ((ha_vis q).2 (Or.inr hqa))⟩
  · intro q hq
    rcases List.mem_append.1 hq with h | h
    · exact ha_nv q h
    · exact fun hst => hb_nv q h ((ha_vis q).2 (Or.inl hst))
  · intro q hq
    rcases List.mem_append.1 hq with h | h
    exacts [ha_some q h, hb_some q h]
  · rw [hb_docs, ha_docs, List.filterMap_append, List.append_assoc]
  · intro q
    rw [hb_vis q, ha_vis q, List.mem_append]
    tauto

theorem loadListWith_inv {fs : String → Option LoadedDoc}
    {step : LoaderState → String → Option LoaderState}
    (hstep : ∀ st p st', step st p = some st' → LoadInv fs st st') :
    ∀ (l : List String) (st st' : LoaderState),
      loadListWith step st l = some st' → LoadInv fs st st' := by
  intro l
  induction l with
  | nil =>
    intro st st' h
    simp only [loadListWith] at h
    cases h
    exact LoadInv.refl fs st
  | cons q qs ih =>
    intro st st' h
    simp only [loadListWith] at h
    cases hq : step st q with
    | none => rw [hq] at h; cases h
    | some st1 =>
      rw [hq] at h
      exact LoadInv.trans (hstep st q st1 hq) (ih st1 st' h)

theorem load_recursive_inv (fs : String → Option LoadedDoc) :
    ∀ (fuel : Nat) (st : LoaderState) (path : String) (st' : LoaderState),
      load_recursive fs fuel st path = some st' → LoadInv fs st st' := by
  intro fuel
  induction fuel with
  | zero =>
    intro st path st' h
    rw [load_recursive_zero] at h
    cases h
  | succ n ih =>
    intro st path st' h
    rw [load_recursive_succ] at h
    by_cases hv : path ∈ st.visited_paths
    · rw [if_pos hv] at h
      cases h
      exact LoadInv.refl fs st
    · rw [if_neg hv] at h
      split at h
      · cases h
      · rename_i doc hfs
        split at h
        · cases h
        · rename_i st2 hl
          cases h
          obtain ⟨new, hnd, hnv, hsome, hdocs, hvis⟩ :=
            loadListWith_inv (fun st p st' => ih st p st') doc.includes _ st2 hl
          refine ⟨new ++ [path], ?_, ?_, ?_, ?_, ?_⟩
          · rw [List.nodup_append]
            refine ⟨hnd, List.nodup_singleton path, fun q hqn hqp => ?_⟩
            rw [List.mem_singleton] at hqp
            subst hqp
            exact hnv q hqn (List.mem_cons_self _ _)
          · intro q hq
            rcases List.mem_append.1 hq with h | h
            · exact fun hst => hnv q h (List.mem_cons_of_mem _ hst)
            · rw [List.mem_singleton] at h
              subst h
              exact hv
          · intro q hq
            rcases List.mem_append.1 hq with h | h
            · exact hsome q h
            · rw [List.mem_singleton] at h
              subst h
              rw [hfs]
              rfl
          · simp only [List.filterMap_append, List.filterMap, hfs]
            rw [hdocs]
            simp [List.append_assoc]
          · intro q
            simp only [hvis q, List.mem_cons, List.mem_append, List.mem_singleton]
            tauto

end MotyaLoader

/-- C2: for every filesystem, fuel and entry point, a successful recursive load starting
from the empty state appends the entry point's parsed document LAST in the ordered
document list, and `build_config` consumes the `system` section from that last document
only — so the configuration's system fields depend on no included file's `system`
section. -/
theorem loader_entry_doc_last_system_from_entry
    (fs : String → Option MotyaLoader.LoadedDoc) (fuel : Nat) (entry : String)
    (st : MotyaLoader.LoaderState)
    (h : MotyaLoader.load_recursive fs fuel ⟨[], []⟩ entry = some st) :
    ∃ doc, fs entry = some doc ∧ st.documents.getLast? = some doc ∧
      MotyaLoader.build_config st.documents =
        doc.system.map MotyaLoader.configFromSys := by
  cases fuel with
  | zero => rw [MotyaLoader.load_recursive_zero] at h; cases h
  | succ n =>
    rw [MotyaLoader.load_recursive_succ] at h
    rw [if_neg (List.not_mem_nil entry)] at h
    split at h
    · cases h
    · rename_i doc hfs
      split at h
      · cases h
      · rename_i st2 hl
        cases h
        have hlast : (st2.documents ++ [doc]).getLast? = some doc := by
          simp
        refine ⟨doc, hfs, hlast, ?_⟩
        unfold MotyaLoader.build_config
        rw [hlast]

/-- C7: for every filesystem, fuel and entry point (include cycles and repeated includes
included), a successful load from the empty state yields a document list that is exactly
the parsed documents of a duplicate-free list of paths — the visited set — in some
order: every file in the include closure contributes its parsed document exactly once. -/
theorem loader_include_idempotence
    (fs : String → Option MotyaLoader.LoadedDoc) (fuel : Nat) (entry : String)
    (st : MotyaLoader.LoaderState)
    (h : MotyaLoader.load_recursive fs fuel ⟨[], []⟩ entry = some st) :
    ∃ order : List String, order.Nodup ∧
      (∀ q, q ∈ order ↔ q ∈ st.visited_paths) ∧
      (∀ q ∈ order, (fs q).isSome) ∧
      st.documents = order.filterMap fs := by
  obtain ⟨new, hnd, _, hsome, hdocs, hvis⟩ :=
    MotyaLoader.load_recursive_inv fs fuel _ entry st h
  refine ⟨new, hnd, fun q => ?_, hsome, by simpa using hdocs⟩
  rw [hvis q]
  simp

/-- C2 witness: the concrete two-file load succeeds and the entry-point document is
last, with the system fields taken from it (not from the included file). -/
theorem loader_entry_doc_last_system_from_entry_witness :
    (MotyaLoader.load_recursive fsW 2 ⟨[], []⟩ "main.kdl" = some stW) ∧
    (∃ doc, fsW "main.kdl" = some doc ∧ stW.documents.getLast? = some doc ∧
      MotyaLoader.build_config stW.documents =
        doc.system.map MotyaLoader.configFromSys) :=
  ⟨rfl, loader_entry_doc_last_system_from_entry fsW 2 "main.kdl" stW rfl⟩

/-- C7 witness: the concrete two-file load visits each file once and its document list
is the parsed documents of the duplicate-free visited list. -/
theorem loader_include_idempotence_witness :
    (MotyaLoader.load_recursive fsW 2 ⟨[], []⟩ "main.kdl" = some stW) ∧
    (∃ order : List String, order.Nodup ∧
      (∀ q, q ∈ order ↔ q ∈ stW.visited_paths) ∧
      (∀ q ∈ order, (fsW q).isSome) ∧
      stW.documents = order.filterMap fsW) :=
  ⟨rfl, loader_include_idempotence fsW 2 "main.kdl" stW rfl⟩

/-- Reducing `Except` bind on a success value (used to push parse-step hypotheses
through the extractors). -/
theorem exceptBind_ok {α β ε : Type} (a : α) (f : α → Except ε β) :
    (Except.ok a >>= f) = f a :=
  rfl

/-- Reducing `Except` bind on an error value. -/
theorem exceptBind_err {α β ε : Type} (e : ε) (f : α → Except ε β) :
    ((Except.error e : Except ε α) >>= f) = .error e :=
  rfl

/-- `pure` for `Except` is `Except.ok`. -/
theorem exceptPure {α ε : Type} (a : α) : (pure a : Except ε α) = .ok a :=
  rfl

/-- C8: for a TCP listener node (name parses as a socket address, arguments are
key/value pairs): giving exactly one of `cert-path`/`key-path` fails with the
both-or-neither error; giving `offer-h2` without them fails with the h2-requires-TLS
error; giving none of the three parses to a plain TCP listener with TLS disabled and
`offer_h2 = false`. -/
theorem extract_listener_tls_validation
    (env : River.ExternEnv) (name : String) (entries : List River.KdlEntry)
    (args : List (String × River.KdlValue))
    (hargs : River.str_value_args entries = .ok args)
    (hsa : env.isSocketAddr name = true) :
    (∀ (c : String) (h2 : Option Bool),
      River.map_ensure_str (River.assocLast args "cert-path") = .ok (some c) →
      River.map_ensure_str (River.assocLast args "key-path") = .ok none →
      River.map_ensure_bool (River.assocLast args "offer-h2") = .ok h2 →
      River.extract_listener env name entries = .error
        "'cert-path' and 'key-path' must either BOTH be present, or NEITHER should be present") ∧
    (∀ (k : String) (h2 : Option Bool),
      River.map_ensure_str (River.assocLast args "cert-path") = .ok none →
      River.map_ensure_str (River.assocLast args "key-path") = .ok (some k) →
      River.map_ensure_bool (River.assocLast args "offer-h2") = .ok h2 →
      River.extract_listener env name entries = .error
        "'cert-path' and 'key-path' must either BOTH be present, or NEITHER should be present") ∧
    (∀ b : Bool,
      River.map_ensure_str (River.assocLast args "cert-path") = .ok none →
      River.map_ensure_str (River.assocLast args "key-path") = .ok none →
      River.map_ensure_bool (River.assocLast args "offer-h2") = .ok (some b) →
      River.extract_listener env name entries = .error
        "'offer-h2' requires TLS, specify 'cert-path' and 'key-path'") ∧
    (River.map_ensure_str (River.assocLast args "cert-path") = .ok none →
      River.map_ensure_str (River.assocLast args "key-path") = .ok none →
      River.map_ensure_bool (River.assocLast args "offer-h2") = .ok none →
      River.extract_listener env name entries =
        .ok ⟨.Tcp name none false⟩) := by
  refine ⟨fun c h2 hc hk hh => ?_, fun k h2 hc hk hh => ?_, fun b hc hk hh => ?_,
    fun hc hk hh => ?_⟩ <;>
    simp [River.extract_listener, hargs, hsa, hc, hk, hh, exceptBind_ok, exceptPure]

/-- C8 witness: the three argument shapes at concrete inputs — `cert-path` alone fails,
`offer-h2` alone fails, and no TLS arguments parse as a plain TCP listener. -/
theorem extract_listener_tls_validation_witness :
    (River.str_value_args [⟨some "cert-path", .str "./a.crt"⟩] =
        .ok [("cert-path", .str "./a.crt")] ∧
      (River.ExternEnv.mk (fun s => s == "127.0.0.1:80") (fun _ => true)).isSocketAddr
        "127.0.0.1:80" = true ∧
      River.extract_listener ⟨fun s => s == "127.0.0.1:80", fun _ => true⟩ "127.0.0.1:80"
        [⟨some "cert-path", .str "./a.crt"⟩] = .error
        "'cert-path' and 'key-path' must either BOTH be present, or NEITHER should be present") ∧
    (River.extract_listener ⟨fun s => s == "127.0.0.1:80", fun _ => true⟩ "127.0.0.1:80"
        [⟨some "offer-h2", .bool true⟩] = .error
        "'offer-h2' requires TLS, specify 'cert-path' and 'key-path'") ∧
    (River.extract_listener ⟨fun s => s == "127.0.0.1:80", fun _ => true⟩ "127.0.0.1:80"
        [] = .ok ⟨.Tcp "127.0.0.1:80" none false⟩) :=
  ⟨⟨rfl, rfl,
    (extract_listener_tls_validation ⟨fun s => s == "127.0.0.1:80", fun _ => true⟩
      "127.0.0.1:80" [⟨some "cert-path", .str "./a.crt"⟩]
      [("cert-path", .str "./a.crt")] rfl rfl).1 "./a.crt" none rfl rfl rfl⟩,
    (extract_listener_tls_validation ⟨fun s => s == "127.0.0.1:80", fun _ => true⟩
      "127.0.0.1:80" [⟨some "offer-h2", .bool true⟩]
      [("offer-h2", .bool true)] rfl rfl).2.2.1 true rfl rfl rfl,
    (extract_listener_tls_validation ⟨fun s => s == "127.0.0.1:80", fun _ => true⟩
      "127.0.0.1:80" [] [] rfl rfl).2.2.2 rfl rfl rfl⟩

/-- C9: `return code="200" response="OK"` parses to a `Static` upstream with status 200
and body "OK", and serving that upstream answers every request with status 200, body
"OK", the header `Content-Type: text/plain; charset=utf-8`, and keepalive disabled on
the downstream session. -/
theorem return_connector_static_response (env : River.ExternEnv) :
    River.extract_connector env "return"
      [⟨some "code", .str "200"⟩, ⟨some "response", .str "OK"⟩]
      = .ok (.Static ⟨200, "OK"⟩) ∧
    ∀ req : River.Request,
      River.SimpleResponse.request_filter ⟨200, "OK"⟩ req =
        ⟨200, [("Content-Type", "text/plain; charset=utf-8")], "OK", none⟩ :=
  ⟨rfl, fun _ => rfl⟩

/-- C10 (implicit): a TCP listener configured with both `cert-path` and `key-path` but
without an `offer-h2` property parses with `offer_h2 = true` — HTTP/2 is offered by
default on every TLS listener. -/
theorem tls_listener_offers_h2_by_default
    (env : River.ExternEnv) (name : String) (entries : List River.KdlEntry)
    (args : List (String × River.KdlValue)) (c k : String)
    (hargs : River.str_value_args entries = .ok args)
    (hsa : env.isSocketAddr name = true)
    (hc : River.map_ensure_str (River.assocLast args "cert-path") = .ok (some c))
    (hk : River.map_ensure_str (River.assocLast args "key-path") = .ok (some k))
    (hh : River.map_ensure_bool (River.assocLast args "offer-h2") = .ok none) :
    River.extract_listener env name entries =
      .ok ⟨.Tcp name (some ⟨c, k⟩) true⟩ := by
  simp [River.extract_listener, hargs, hsa, hc, hk, hh, exceptBind_ok, Option.getD, exceptPure]

/-- C10 witness: a concrete TLS listener without `offer-h2` parses with
`offer_h2 = true`. -/
theorem tls_listener_offers_h2_by_default_witness :
    (River.str_value_args
        [⟨some "cert-path", .str "./a.crt"⟩, ⟨some "key-path", .str "./a.key"⟩] =
      .ok [("cert-path", .str "./a.crt"), ("key-path", .str "./a.key")]) ∧
    River.extract_listener ⟨fun s => s == "0.0.0.0:4443", fun _ => true⟩ "0.0.0.0:4443"
        [⟨some "cert-path", .str "./a.crt"⟩, ⟨some "key-path", .str "./a.key"⟩] =
      .ok ⟨.Tcp "0.0.0.0:4443" (some ⟨"./a.crt", "./a.key"⟩) true⟩ :=
  ⟨rfl,
    tls_listener_offers_h2_by_default ⟨fun s => s == "0.0.0.0:4443", fun _ => true⟩
      "0.0.0.0:4443"
      [⟨some "cert-path", .str "./a.crt"⟩, ⟨some "key-path", .str "./a.key"⟩]
      [("cert-path", .str "./a.crt"), ("key-path", .str "./a.key")]
      "./a.crt" "./a.key" rfl rfl rfl rfl rfl⟩

/-- Inverting `Except` bind on a success result. -/
theorem exceptBind_eq_ok {ε α β : Type} {x : Except ε α} {f : α → Except ε β} {b : β}
    (h : (x >>= f) = .ok b) : ∃ a, x = .ok a ∧ f a = .ok b := by
  cases x with
  | error e => exact absurd h (by simp [exceptBind_err])
  | ok a => exact ⟨a, rfl, h⟩

/-- A successful `NonZeroUsize` construction is positive. -/
theorem nonZeroOr_pos {msg : String} {n v : Nat} (h : River.nonZeroOr msg n = .ok v) :
    0 < v := by
  unfold River.nonZeroOr at h
  split at h
  · cases h
  · cases h
    omega

/-- C4 counterexample: a `source-ip` rule with `max-buckets=0` is NOT rejected —
`make_rate_limiter` accepts it and stores `max_buckets = 0` (the Rust code wraps only
the other three fields in `NonZeroUsize`). -/
theorem make_rate_limiter_accepts_zero_max_buckets :
    River.make_rate_limiter 8 ⟨fun _ => false, fun _ => true⟩ argsRL =
      .ok (.Multi .SourceIp ⟨8, 0, 1, 1, 1⟩) :=
  rfl

/-- C4 (amended): for every rule of any kind, whenever parsing succeeds the three
common numeric fields — tokens-per-bucket, refill-rate-ms, refill-qty — are strictly
positive (parsing fails on 0 for them); `max-buckets`, required for the multi-bucket
kinds, need only be a non-negative integer and may be 0. -/
theorem make_rate_limiter_positive_fields
    (tps : Nat) (env : River.ExternEnv) (args : List (String × River.KdlValue))
    (r : River.AllRateConfig) (h : River.make_rate_limiter tps env args = .ok r) :
    (match r with
     | .Multi _ c =>
       0 < c.max_tokens_per_bucket ∧ 0 < c.refill_interval_millis ∧ 0 < c.refill_qty
     | .Single _ c =>
       0 < c.max_tokens_per_bucket ∧ 0 < c.refill_interval_millis ∧ 0 < c.refill_qty) := by
  unfold River.make_rate_limiter at h
  obtain ⟨kind, hkind, h⟩ := exceptBind_eq_ok h
  obtain ⟨t0, ht0, h⟩ := exceptBind_eq_ok h
  obtain ⟨tokens, htok, h⟩ := exceptBind_eq_ok h
  obtain ⟨q0, hq0, h⟩ := exceptBind_eq_ok h
  obtain ⟨qty, hqty, h⟩ := exceptBind_eq_ok h
  obtain ⟨r0, hr0, h⟩ := exceptBind_eq_ok h
  obtain ⟨rate, hrate, h⟩ := exceptBind_eq_ok h
  split at h
  · obtain ⟨mb, hmb, h⟩ := exceptBind_eq_ok h
    cases h
    exact ⟨nonZeroOr_pos htok, nonZeroOr_pos hrate, nonZeroOr_pos hqty⟩
  · split at h
    · obtain ⟨pat, hpat, h⟩ := exceptBind_eq_ok h
      obtain ⟨mb, hmb, h⟩ := exceptBind_eq_ok h
      cases h
      exact ⟨nonZeroOr_pos htok, nonZeroOr_pos hrate, nonZeroOr_pos hqty⟩
    · split at h
      · obtain ⟨pat, hpat, h⟩ := exceptBind_eq_ok h
        cases h
        exact ⟨nonZeroOr_pos htok, nonZeroOr_pos hrate, nonZeroOr_pos hqty⟩
      · cases h

/-- C4 witness: the amended positivity applied to the concrete accepted rule. -/
theorem make_rate_limiter_positive_fields_witness :
    (River.make_rate_limiter 8 ⟨fun _ => false, fun _ => true⟩ argsRL =
      .ok (.Multi .SourceIp ⟨8, 0, 1, 1, 1⟩)) ∧
    (match (River.AllRateConfig.Multi .SourceIp ⟨8, 0, 1, 1, 1⟩) with
     | .Multi _ c =>
       0 < c.max_tokens_per_bucket ∧ 0 < c.refill_interval_millis ∧ 0 < c.refill_qty
     | .Single _ c =>
       0 < c.max_tokens_per_bucket ∧ 0 < c.refill_interval_millis ∧ 0 < c.refill_qty) :=
  ⟨rfl, make_rate_limiter_positive_fields 8 ⟨fun _ => false, fun _ => true⟩ argsRL
    (.Multi .SourceIp ⟨8, 0, 1, 1, 1⟩) rfl⟩

/-- C5 (amended): a service whose duplicate-free child-section names are a subset (not
necessarily strict) of {listeners, connectors, path-control, rate-limiting} is parsed as
a proxy service; otherwise a subset of {listeners, file-server} is parsed as a file
server; otherwise parsing fails with "Unknown configuration section(s): " followed by
the child-section names that belong to neither set. -/
theorem extract_services_classification_amended
    (env : River.ExternEnv) (tps : Nat) (svcName : String)
    (svcChildren : River.KdlDocument) (names : List String)
    (hfp : River.fingerprintOf svcChildren = .ok names) :
    River.extract_services env tps
      [.mk "services" [] (some [.mk svcName [] (some svcChildren)])] =
      (if River.subsetOf names River.proxy_node_set then
        (River.extract_service env tps svcName svcChildren).map (fun p => ([p], []))
      else if River.subsetOf names River.file_server_node_set then
        (River.extract_file_server env svcName svcChildren).map (fun f => ([], [f]))
      else .error ("Unknown configuration section(s): '" ++
        River.unknownSections names ++ "'")) := by
  unfold River.extract_services
  simp only [River.required_child_doc, River.docGet, List.find?, River.KdlNode.name,
    beq_self_eq_true, River.KdlNode.children, exceptBind_ok,
    River.wildcard_argless_child_docs, List.mapM, List.mapM.loop,
    River.KdlNode.entries, Bool.not_true, List.isEmpty, Bool.not_false, if_false,
    List.reverse, List.foldlM, River.serviceStep, hfp, exceptPure,
    Bool.false_eq_true, List.reverseAux]
  split
  · cases hx : River.extract_service env tps svcName svcChildren with
    | error e => simp [hx, exceptBind_err, Except.map]
    | ok p => simp [hx, exceptBind_ok, Except.map]
  · split
    · cases hx : River.extract_file_server env svcName svcChildren with
      | error e => simp [hx, exceptBind_err, Except.map]
      | ok f => simp [hx, exceptBind_ok, Except.map]
    · simp [exceptBind_err]

/-- C5 counterexample: a service with child sections exactly {listeners, connectors,
path-control, rate-limiting} — a strict subset of neither section-name set — is parsed
successfully as a proxy service instead of failing with the unknown-sections error
(`HashSet::is_subset` is not strict). -/
theorem extract_services_full_proxy_set_is_proxy :
    (River.fingerprintOf svcFull =
      .ok ["listeners", "connectors", "path-control", "rate-limiting"]) ∧
    (River.extract_services envW 8
        [.mk "services" [] (some [.mk "Example" [] (some svcFull)])]).map
      (fun r => (r.1.length, r.2.length)) = .ok (1, 0) :=
  ⟨rfl, rfl⟩

/-- C5 witness: the amended classification applied to the same concrete service. -/
theorem extract_services_classification_amended_witness :
    (River.fingerprintOf svcFull =
      .ok ["listeners", "connectors", "path-control", "rate-limiting"]) ∧
    River.extract_services envW 8
        [.mk "services" [] (some [.mk "Example" [] (some svcFull)])] =
      (if River.subsetOf ["listeners", "connectors", "path-control", "rate-limiting"]
          River.proxy_node_set then
        (River.extract_service envW 8 "Example" svcFull).map (fun p => ([p], []))
      else if River.subsetOf ["listeners", "connectors", "path-control", "rate-limiting"]
          River.file_server_node_set then
        (River.extract_file_server envW "Example" svcFull).map (fun f => ([], [f]))
      else .error ("Unknown configuration section(s): '" ++
        River.unknownSections
          ["listeners", "connectors", "path-control", "rate-limiting"] ++ "'")) :=
  ⟨rfl, extract_services_classification_amended envW 8 "Example" svcFull
    ["listeners", "connectors", "path-control", "rate-limiting"] rfl⟩

/-- C6 counterexample: `threads-per-service 0` is NOT rejected — the whole configuration
parses and the value 0 is stored (`i64::try_into::<usize>` accepts 0). -/
theorem threads_per_service_zero_accepted :
    (River.config_try_from envW docTps0).map (fun c => c.threads_per_service) =
      .ok 0 :=
  rfl

/-- C6 (amended): a missing `system` section or `threads-per-service` node defaults to
8; a present value fails unless it is a non-negative integer (non-integer values and
negative integers are rejected; 0 is accepted and parses to 0); a failing system section
fails the whole config parse. -/
theorem threads_per_service_amended :
    (∀ doc : River.KdlDocument, River.optional_child_doc doc "system" = none →
      River.extract_system_data doc = .ok River.SystemData.default) ∧
    (∀ sys : River.KdlDocument, River.docGet sys "threads-per-service" = none →
      River.extract_threads_per_service sys = .ok 8) ∧
    (∀ (sys : River.KdlDocument) (n : River.KdlNode) (e : River.KdlEntry),
      River.docGet sys "threads-per-service" = some n → n.entries = [e] →
      e.value.as_integer = none →
      River.extract_threads_per_service sys =
        .error "system > threads-per-service should be an integer") ∧
    (∀ (sys : River.KdlDocument) (n : River.KdlNode) (e : River.KdlEntry) (v : Int),
      River.docGet sys "threads-per-service" = some n → n.entries = [e] →
      e.value.as_integer = some v → v < 0 →
      River.extract_threads_per_service sys =
        .error "system > threads-per-service should fit in a usize") ∧
    (∀ (sys : River.KdlDocument) (n : River.KdlNode) (e : River.KdlEntry) (v : Int),
      River.docGet sys "threads-per-service" = some n → n.entries = [e] →
      e.value.as_integer = some v → 0 ≤ v →
      River.extract_threads_per_service sys = .ok v.toNat) ∧
    (∀ (env : River.ExternEnv) (doc : River.KdlDocument) (msg : String),
      River.extract_system_data doc = .error msg →
      River.config_try_from env doc = .error msg) := by
  refine ⟨fun doc h => ?_, fun sys h => ?_, fun sys n e h1 h2 h3 => ?_,
    fun sys n e v h1 h2 h3 hv => ?_, fun sys n e v h1 h2 h3 hv => ?_,
    fun env doc msg h => ?_⟩
  · simp [River.extract_system_data, h, exceptPure]
  · simp [River.extract_threads_per_service, h]
  · simp [River.extract_threads_per_service, h1, h2, h3]
  · have hnot : ¬(0 ≤ v) := not_le.2 hv
    simp [River.extract_threads_per_service, h1, h2, h3, hnot]
  · simp [River.extract_threads_per_service, h1, h2, h3, hv]
  · simp [River.config_try_from, h, exceptBind_err]

/-- C6 witness: the default, the rejected negative and the accepted zero, at concrete
system documents. -/
theorem threads_per_service_amended_witness :
    (River.docGet ([] : River.KdlDocument) "threads-per-service" = none ∧
      River.extract_threads_per_service [] = .ok 8) ∧
    (River.extract_threads_per_service
        [.mk "threads-per-service" [⟨none, .int (-3)⟩] none] =
      .error "system > threads-per-service should fit in a usize") ∧
    (River.extract_threads_per_service
        [.mk "threads-per-service" [⟨none, .int 0⟩] none] = .ok 0) :=
  ⟨⟨rfl, threads_per_service_amended.2.1 [] rfl⟩,
    threads_per_service_amended.2.2.2.1
      [.mk "threads-per-service" [⟨none, .int (-3)⟩] none]
      (.mk "threads-per-service" [⟨none, .int (-3)⟩] none)
      ⟨none, .int (-3)⟩ (-3) rfl rfl rfl (by norm_num),
    threads_per_service_amended.2.2.2.2.1
      [.mk "threads-per-service" [⟨none, .int 0⟩] none]
      (.mk "threads-per-service" [⟨none, .int 0⟩] none)
      ⟨none, .int 0⟩ 0 rfl rfl rfl (by norm_num)⟩
